import Mathlib

/-!
# Verification of the ComfyUI job-orchestration core

Shallow embedding of the job orchestration layer of the
Qwen-Image-Edit-2511 backend:

* `src/backend/workflow_template.py` — the job-graph template
  (`get_workflow_template`).
* `src/backend/workflow_executor.py` — parameter injection
  (`inject_workflow_parameters` and the per-node helpers) and the
  standalone validator (`validate_workflow_parameters`).
* `src/backend/comfyui_modal.py` — the polling loop of
  `ComfyUI._execute_workflow_via_api` and the batch endpoint
  `ComfyUI.generate`.

Python dicts are modelled as insertion-ordered association lists, JSON
literals as an inductive `Val`, Python floats as `Rat` (the code only
carries and compares these values, never does rounding arithmetic on
them), and the random draw `random.randint(0, 2**63 - 1)` as a function
of an externally supplied entropy value `rng`.
-/

namespace QwenEdit

/-- A JSON value stored in a workflow node input: a string literal, an
integer literal, a non-integral number literal, or a node reference
`[producerNodeId, outputSlot]`. -/
inductive Val where
  | vStr : String → Val
  | vInt : Int → Val
  | vNum : Rat → Val
  | vRef : String → Nat → Val
  deriving DecidableEq

/-- One node of a ComfyUI API-format workflow: its `class_type` and its
`inputs` dict (insertion-ordered association list). -/
structure Node where
  class_type : String
  inputs : List (String × Val)
  deriving DecidableEq

/-- A workflow graph: the top-level dict mapping node-id strings to
nodes, insertion-ordered. -/
abbrev Workflow := List (String × Node)

/-- Dict lookup: `workflow[nid]` if present. -/
def lookupNode (w : Workflow) (nid : String) : Option Node :=
  (w.find? (fun p => p.1 == nid)).map Prod.snd

/-- Python `nid in workflow`. -/
def hasNode (w : Workflow) (nid : String) : Bool :=
  (lookupNode w nid).isSome

/-- Dict assignment on an inputs dict: overwrite the value at `key` if
present (keeping insertion order), else append. -/
def setInputVal (inputs : List (String × Val)) (key : String) (v : Val) :
    List (String × Val) :=
  if inputs.any (fun p => p.1 == key) then
    inputs.map (fun p => if p.1 == key then (key, v) else p)
  else inputs ++ [(key, v)]

/-- `workflow[nid]["inputs"][key] = v` : update the input dict of node
`nid` (no-op when the node is absent, as in a Python dict this writes
through an existing entry only when `nid` is present). -/
def setNodeInput (w : Workflow) (nid key : String) (v : Val) : Workflow :=
  w.map (fun p => if p.1 == nid then (p.1, { p.2 with inputs := setInputVal p.2.inputs key v }) else p)

/-- `workflow[nid]["inputs"][key]` when node and input both exist. -/
def getInput (w : Workflow) (nid key : String) : Option Val :=
  match lookupNode w nid with
  | none => none
  | some n =>
    match n.inputs.find? (fun p => p.1 == key) with
    | none => none
    | some p => some p.2

/-! ## Seed resolution (`workflow_executor.inject_workflow_parameters`, lines 69-74) -/

/-- The `seed` argument of `inject_workflow_parameters`:
`Optional[Union[int, str]]`. -/
inductive SeedArg where
  | noSeed : SeedArg
  | intSeed : Int → SeedArg
  | strSeed : String → SeedArg
  deriving DecidableEq

/-- Python `str.isdigit` restricted to ASCII: true iff the string is
non-empty and every character is a decimal digit. -/
def strIsDigit (s : String) : Bool :=
  !(s == "") && s.toList.all Char.isDigit

/-- Python `int(s)` on a digit string: decimal value. -/
def strToNat (s : String) : Nat :=
  s.toList.foldl (fun a c => a * 10 + (c.toNat - 48)) 0

/-- Model of `random.randint(0, 2**63 - 1)`: the fresh draw is the
supplied entropy reduced into the inclusive range `[0, 2^63 - 1]`. -/
def randint63 (rng : Nat) : Nat :=
  rng % 2 ^ 63

/-- The seed-resolution branch of `inject_workflow_parameters`
(lines 69-74): `None` draws a fresh random value; a digit string is
parsed with `int`; a non-digit string falls back to a fresh random
value; an integer is used as-is. -/
def resolveSeed (seed : SeedArg) (rng : Nat) : Int :=
  match seed with
  | .noSeed => ((randint63 rng : Nat) : Int)
  | .strSeed s => if strIsDigit s then ((strToNat s : Nat) : Int) else ((randint63 rng : Nat) : Int)
  | .intSeed n => n

/-! ## Parameter injection (`workflow_executor.py`) -/

/-- `_inject_input_image` (lines 91-104): write the image filename into
the LoadImage node "31" if it exists, else return the graph unchanged. -/
def inject_input_image (w : Workflow) (input_image : String) : Workflow :=
  if hasNode w "31" then setNodeInput w "31" "image" (.vStr input_image) else w

/-- `_inject_prompt` (lines 107-122): write the prompt into the
positive-conditioning node "115" text field if the node exists. -/
def inject_prompt (w : Workflow) (prompt : String) : Workflow :=
  if hasNode w "115" then setNodeInput w "115" "text" (.vStr prompt) else w

/-- `_inject_ksampler_params` (lines 125-149): write steps, cfg and seed
into the KSampler node "14" if it exists. -/
def inject_ksampler_params (w : Workflow) (steps : Int) (cfg : Rat) (seed : Int) : Workflow :=
  if hasNode w "14" then
    setNodeInput (setNodeInput (setNodeInput w "14" "steps" (.vInt steps)) "14" "cfg" (.vNum cfg))
      "14" "seed" (.vInt seed)
  else w

/-- `_inject_output_prefix` (lines 152-165): write the filename-prefix
into the SaveImage node "80" if it exists. -/
def inject_output_pfx (w : Workflow) (opfx : String) : Workflow :=
  if hasNode w "80" then setNodeInput w "80" "filename_prefix" (.vStr opfx) else w

/-- `inject_workflow_parameters` (lines 37-88): deep-copy the template
(a no-op in a pure embedding), resolve the seed, then inject input
image, prompt, sampler parameters and output-filename-prefix. `rng` is
the entropy consumed when a fresh random seed is drawn. -/
def inject_workflow_parameters (w : Workflow) (input_image prompt : String)
    (steps : Int) (cfg : Rat) (seed : SeedArg) (opfx : String) (rng : Nat) : Workflow :=
  let seed_value := resolveSeed seed rng
  inject_output_pfx
    (inject_ksampler_params (inject_prompt (inject_input_image w input_image) prompt)
      steps cfg seed_value)
    opfx

/-! ## The workflow template (`workflow_template.get_workflow_template`, lines 47-208) -/

/-- `get_workflow_template`: the ComfyUI API-format job-graph template,
transcribed node by node.  The six substitutable literal slots carry the
placeholder strings of `workflow_template.py`. -/
def get_workflow_template : Workflow :=
  [ ("22", { class_type := "VAELoader",
             inputs := [("vae_name", .vStr "qwen_image_vae.safetensors")] }),
    ("76", { class_type := "CLIPLoader",
             inputs := [("clip_name", .vStr "qwen_2.5_vl_7b.safetensors"),
                        ("type", .vStr "stable_diffusion"),
                        ("device", .vStr "default")] }),
    ("77", { class_type := "UNETLoader",
             inputs := [("unet_name", .vStr "Qwen-Image-Edit-2511.safetensors"),
                        ("weight_dtype", .vStr "default")] }),
    ("125", { class_type := "LoraLoaderModelOnly",
              inputs := [("model", .vRef "77" 0),
                         ("lora_name", .vStr "Qwen-Image-Lightning-4steps-V1.0.safetensors"),
                         ("strength_model", .vNum (4 / 5))] }),
    ("20", { class_type := "LoraLoaderModelOnly",
             inputs := [("model", .vRef "125" 0),
                        ("lora_name", .vStr "Qwen-Image-Lightning-8steps-V1.0.safetensors"),
                        ("strength_model", .vNum 1)] }),
    ("31", { class_type := "LoadImage",
             inputs := [("image", .vStr "__INPUT_IMAGE__"),
                        ("upload", .vStr "image")] }),
    ("39", { class_type := "ImageScaleToTotalPixels",
             inputs := [("image", .vRef "31" 0),
                        ("upscale_method", .vStr "lanczos"),
                        ("megapixels", .vInt 1),
                        ("resolution_steps", .vInt 1)] }),
    ("10", { class_type := "VAEEncode",
             inputs := [("pixels", .vRef "39" 0),
                        ("vae", .vRef "22" 0)] }),
    ("115", { class_type := "TextEncodeQwenImageEditPlus",
              inputs := [("clip", .vRef "76" 0),
                         ("vae", .vRef "22" 0),
                         ("image1", .vRef "39" 0),
                         ("text", .vStr "__PROMPT__")] }),
    ("3", { class_type := "TextEncodeQwenImageEditPlus",
            inputs := [("clip", .vRef "76" 0),
                       ("vae", .vRef "22" 0),
                       ("image1", .vRef "39" 0),
                       ("text", .vStr "")] }),
    ("2", { class_type := "ModelSamplingAuraFlow",
            inputs := [("model", .vRef "20" 0),
                       ("shift", .vInt 3)] }),
    ("1", { class_type := "CFGNorm",
            inputs := [("model", .vRef "2" 0),
                       ("strength", .vInt 1)] }),
    ("14", { class_type := "KSampler",
             inputs := [("model", .vRef "1" 0),
                        ("positive", .vRef "115" 0),
                        ("negative", .vRef "3" 0),
                        ("latent_image", .vRef "10" 0),
                        ("seed", .vStr "__SEED__"),
                        ("control_after_generate", .vStr "randomize"),
                        ("steps", .vStr "__STEPS__"),
                        ("cfg", .vStr "__CFG__"),
                        ("sampler_name", .vStr "euler"),
                        ("scheduler", .vStr "simple"),
                        ("denoise", .vNum 1)] }),
    ("12", { class_type := "VAEDecode",
             inputs := [("samples", .vRef "14" 0),
                        ("vae", .vRef "22" 0)] }),
    ("80", { class_type := "SaveImage",
             inputs := [("images", .vRef "12" 0),
                        ("filename_prefix", .vStr "__OUTPUT_PREFIX__")] }) ]

/-! ## The standalone validator (`workflow_executor.validate_workflow_parameters`, lines 246-278) -/

/-- A request-level Python value, as far as the validation code
distinguishes them by `isinstance` checks. -/
inductive PyVal where
  | pInt : Int → PyVal
  | pFloat : Rat → PyVal
  | pStr : String → PyVal
  | pNone : PyVal
  deriving DecidableEq

/-- Rendering used in the validator's error messages (`f"... got ..."`). -/
def pyShow : PyVal → String
  | .pInt n => toString n
  | .pFloat q => toString q
  | .pStr s => s
  | .pNone => "None"

/-- `isinstance(steps, int) and 4 <= steps <= 8`. -/
def stepsOk : PyVal → Bool
  | .pInt n => decide (4 ≤ n) && decide (n ≤ 8)
  | _ => false

/-- `isinstance(cfg, (int, float)) and 1.0 <= cfg <= 5.0`. -/
def cfgOk : PyVal → Bool
  | .pInt n => decide ((1 : Int) ≤ n) && decide (n ≤ 5)
  | .pFloat q => decide ((1 : Rat) ≤ q) && decide (q ≤ 5)
  | _ => false

/-- The seed branch of `validate_workflow_parameters` (lines 271-276):
`None` passes; a string fails only when non-empty and not all digits; an
int passes; anything else fails. -/
def seedOk : Option PyVal → Bool
  | none => true
  | some (.pStr s) => !(!(s == "") && !strIsDigit s)
  | some (.pInt _) => true
  | some _ => false

/-- `validate_workflow_parameters` (lines 246-278): returns
`(is_valid, error_message)`, checking steps, then cfg, then seed. -/
def validate_workflow_parameters (steps cfg : PyVal) (seed : Option PyVal) : Bool × String :=
  if !stepsOk steps then
    (false, "steps must be an integer between 4 and 8, got " ++ pyShow steps)
  else if !cfgOk cfg then
    (false, "cfg must be a number between 1.0 and 5.0, got " ++ pyShow cfg)
  else if !seedOk seed then
    match seed with
    | some (.pStr s) => (false, "seed must be a numeric string, got \x27" ++ s ++ "\x27")
    | _ => (false, "seed must be an integer or numeric string")
  else (true, "")

/-! ## The polling loop (`comfyui_modal.ComfyUI._execute_workflow_via_api`, lines 559-675) -/

/-- What one round of the history poll observes for the submitted
`prompt_id`: the id absent or a 404 (still pending), a `status_str ==
"error"` entry with its message list, the SaveImage node "80" present in
`outputs` with its image list, a history entry without a node-80 image
yet, or a transport error (logged as a warning and ignored). -/
inductive PollResp where
  | notFound : PollResp
  | errorStatus : List String → PollResp
  | outputsReady : List String → PollResp
  | pending : PollResp
  | transportErr : PollResp
  deriving DecidableEq

/-- Terminal outcome of one job run: the first artifact filename
fetched, the engine-reported failure messages, or a timeout after the
whole budget elapsed. -/
inductive ExecOutcome where
  | done : String → ExecOutcome
  | failed : List String → ExecOutcome
  | timedOut : Nat → ExecOutcome
  deriving DecidableEq

/-- One second of the polling loop passes per iteration (the loop body
ends in `time.sleep(1)`); `fuel` is the remaining whole seconds of the
budget and `t` the elapsed seconds.  An `error` status terminates with
`failed`; a non-empty node-80 image list terminates with `done` on its
first element; everything else (404, no entry yet, empty image list,
transport error) keeps polling. -/
def pollFrom (polls : Nat → PollResp) (timeout : Nat) : Nat → Nat → ExecOutcome
  | 0, _ => .timedOut timeout
  | fuel + 1, t =>
    match polls t with
    | .errorStatus msgs => .failed msgs
    | .outputsReady (f :: _) => .done f
    | _ => pollFrom polls timeout fuel (t + 1)

/-- `_execute_workflow_via_api` after a successful submission: drive the
polling loop from elapsed time 0 with the wall-clock budget (`timeout`
defaults to 120 seconds in the source). -/
def execute_workflow_via_api (polls : Nat → PollResp) (timeout : Nat := 120) : ExecOutcome :=
  pollFrom polls timeout timeout 0

/-- A poll observation that is not a terminal state: neither an error
status nor a non-empty node-80 output list. -/
def nonTerminal : PollResp → Bool
  | .errorStatus _ => false
  | .outputsReady (_ :: _) => false
  | _ => true

/-! ## The batch endpoint (`comfyui_modal.ComfyUI.generate`, lines 706-962) -/

/-- One perspective object of the request body; each field is read with
`perspective.get`, so each may be absent. -/
structure Persp where
  id : Option String
  name : Option String
  prompt : Option String
  deriving DecidableEq

/-- Outcome of one `infer_single` call as `generate` observes it: the
base64-encoded generated image, or one of the three exception classes
caught by the batch loop (`TimeoutError`, `RuntimeError`, any other
`Exception`). -/
inductive JobOutcome where
  | success : String → JobOutcome
  | timedOut : String → JobOutcome
  | runtimeError : String → JobOutcome
  | otherError : String → JobOutcome
  deriving DecidableEq

/-- One entry of the success response's `images` list. -/
structure ImageEntry where
  perspective_id : String
  perspective_name : String
  image : String
  seed_used : String
  deriving DecidableEq

/-- The JSON response of `generate`: an error body `(status, error,
message)` — which carries no `images` key at all — or the success body
`(images, original_image)` (the wall-clock `total_time` field is real
time and is not modelled). -/
inductive GenResponse where
  | errorResp : Nat → String → String → GenResponse
  | successResp : List ImageEntry → String → GenResponse
  deriving DecidableEq

/-- The request body of `generate`.  Per the wire contract the optional
`seed` is a string; `steps` and `cfg_scale` may be arbitrary JSON values
(the code type-checks them), and `image` may be absent. -/
structure GenRequest where
  image : Option String
  perspectives : List Persp
  steps : Option PyVal
  cfg_scale : Option PyVal
  seed : Option String

/-- The external collaborators `generate` consults: the health check of
the engine runtime, the base64-decode-and-size check of the input
image, and the per-perspective `infer_single` job run (indexed by the
position of the perspective in the request). -/
structure GenEnv where
  healthy : Bool
  imageOk : String → Bool
  runJob : Nat → Persp → JobOutcome

/-- Python truthiness of `p.get("prompt")`: falsy when absent or empty. -/
def promptFalsy : Option String → Bool
  | none => true
  | some s => s == ""

/-- The per-perspective format check (lines 818-834): index of the first
perspective whose `prompt` is falsy, if any. -/
def firstBadPrompt : List Persp → Nat → Option Nat
  | [], _ => none
  | p :: ps, i => if promptFalsy p.prompt then some i else firstBadPrompt ps (i + 1)

/-- `perspective.get("id", str(i))`. -/
def pidAt (p : Persp) (i : Nat) : String :=
  p.id.getD (toString i)

/-- `perspective.get("name", f"视角i+1")`. -/
def pnameAt (p : Persp) (i : Nat) : String :=
  p.name.getD ("视角" ++ toString (i + 1))

/-- `"seed_used": seed if seed else "random"` (line 897): the literal
string "random" whenever the request seed is falsy. -/
def seedUsed : Option String → String
  | none => "random"
  | some s => if s == "" then "random" else s

/-- The error body returned by the batch loop's exception handlers
(lines 902-937) for a failing perspective named `pname`. -/
def perspFailureResponse (pname : String) : JobOutcome → GenResponse
  | .timedOut _ => .errorResp 504 "timeout" ("视角 \x27" ++ pname ++ "\x27 的生成超时")
  | .runtimeError e =>
      .errorResp 500 "generation_error" ("视角 \x27" ++ pname ++ "\x27 的图像生成失败: " ++ e)
  | .otherError e =>
      .errorResp 500 "generation_error" ("视角 \x27" ++ pname ++ "\x27 生成时发生未知错误: " ++ e)
  | .success _ => .errorResp 0 "" ""

/-- The batch loop (lines 871-962): run each perspective in request
order; on success append its entry; on the first exception return the
corresponding error body at once.  The second component records, in
order, the indices whose job was actually run. -/
def runPerspectives (env : GenEnv) (seed : Option String) (orig : String) :
    List Persp → Nat → List ImageEntry → GenResponse × List Nat
  | [], _, acc => (.successResp acc orig, [])
  | p :: ps, i, acc =>
    match env.runJob i p with
    | .success img =>
      let rest := runPerspectives env seed orig ps (i + 1)
        (acc ++ [{ perspective_id := pidAt p i, perspective_name := pnameAt p i,
                   image := img, seed_used := seedUsed seed }])
      (rest.1, i :: rest.2)
    | o => (perspFailureResponse (pnameAt p i) o, [i])

/-- `ComfyUI.generate` (lines 706-962): health check, then request
validation in source order (image presence, image decodability,
non-empty perspectives, per-perspective prompt presence, steps range,
cfg range), then the sequential batch loop.  Returns the response body
with HTTP status, paired with the list of perspective indices whose job
was run. -/
def generate (env : GenEnv) (req : GenRequest) : GenResponse × List Nat :=
  if !env.healthy then
    (.errorResp 503 "service_unavailable" "AI 服务暂时不可用，请稍后重试", [])
  else
    match req.image with
    | none => (.errorResp 400 "validation_error" "image is required", [])
    | some img =>
      if img == "" then (.errorResp 400 "validation_error" "image is required", [])
      else if !env.imageOk img then
        (.errorResp 400 "invalid_image" "无效的 base64 图片数据", [])
      else if req.perspectives.isEmpty then
        (.errorResp 400 "validation_error" "at least one perspective is required", [])
      else
        match firstBadPrompt req.perspectives 0 with
        | some i =>
          (.errorResp 400 "validation_error"
            ("perspective[" ++ toString i ++ "].prompt is required"), [])
        | none =>
          if !stepsOk (req.steps.getD (.pInt 8)) then
            (.errorResp 400 "invalid_params" "steps must be an integer between 4 and 8", [])
          else if !cfgOk (req.cfg_scale.getD (.pFloat 3)) then
            (.errorResp 400 "invalid_params" "cfg_scale must be a number between 1.0 and 5.0", [])
          else
            runPerspectives env req.seed img req.perspectives 0 []

/-! ## Generic facts about dict writes -/

/-- A node-input write maps every dict entry to an entry with the same
key, so `find?` by key commutes with the write. -/
lemma find?_setNodeInput (w : Workflow) (nid key m : String) (v : Val) :
    (setNodeInput w nid key v).find? (fun p => p.1 == m)
      = (w.find? (fun p => p.1 == m)).map
          (fun p => if p.1 == nid then (p.1, { p.2 with inputs := setInputVal p.2.inputs key v }) else p) := by
  unfold setNodeInput
  rw [List.find?_map]
  have hpred : ((fun p : String × Node => p.1 == m) ∘
      (fun p : String × Node =>
        if p.1 == nid then (p.1, { p.2 with inputs := setInputVal p.2.inputs key v }) else p))
      = fun p : String × Node => p.1 == m := by
    funext q
    by_cases hq : q.1 == nid <;> simp [Function.comp, hq]
  rw [hpred]

/-- Writing an input of node `nid` leaves every other node untouched. -/
lemma lookupNode_setNodeInput_ne (w : Workflow) (nid key m : String) (v : Val) (h : m ≠ nid) :
    lookupNode (setNodeInput w nid key v) m = lookupNode w m := by
  unfold lookupNode
  rw [find?_setNodeInput]
  cases hf : w.find? (fun p => p.1 == m) with
  | none => rfl
  | some q =>
    have hqm : q.1 = m := by
      have hq := List.find?_some hf
      simpa using hq
    have hqnid : q.1 ≠ nid := by
      rw [hqm]; exact h
    simp [hqnid]

/-- Writing an input of node `nid` creates no node: a key absent before
the write is absent after it. -/
lemma lookupNode_setNodeInput_none (w : Workflow) (nid key m : String) (v : Val)
    (h : lookupNode w m = none) : lookupNode (setNodeInput w nid key v) m = none := by
  unfold lookupNode at *
  rw [find?_setNodeInput]
  cases hf : w.find? (fun p => p.1 == m) with
  | none => rfl
  | some q => rw [hf] at h; simp at h

/-- `_inject_input_image` touches only node "31". -/
lemma lookupNode_inject_input_image_ne (w : Workflow) (img m : String) (h : m ≠ "31") :
    lookupNode (inject_input_image w img) m = lookupNode w m := by
  unfold inject_input_image
  split
  · exact lookupNode_setNodeInput_ne w "31" "image" m _ h
  · rfl

/-- `_inject_prompt` touches only node "115". -/
lemma lookupNode_inject_prompt_ne (w : Workflow) (p m : String) (h : m ≠ "115") :
    lookupNode (inject_prompt w p) m = lookupNode w m := by
  unfold inject_prompt
  split
  · exact lookupNode_setNodeInput_ne w "115" "text" m _ h
  · rfl

/-- `_inject_ksampler_params` touches only node "14". -/
lemma lookupNode_inject_ksampler_ne (w : Workflow) (st : Int) (c : Rat) (sd : Int)
    (m : String) (h : m ≠ "14") :
    lookupNode (inject_ksampler_params w st c sd) m = lookupNode w m := by
  unfold inject_ksampler_params
  split
  · rw [lookupNode_setNodeInput_ne _ _ _ _ _ h, lookupNode_setNodeInput_ne _ _ _ _ _ h,
      lookupNode_setNodeInput_ne _ _ _ _ _ h]
  · rfl

/-- `_inject_output_prefix` touches only node "80". -/
lemma lookupNode_inject_output_pfx_ne (w : Workflow) (pre m : String) (h : m ≠ "80") :
    lookupNode (inject_output_pfx w pre) m = lookupNode w m := by
  unfold inject_output_pfx
  split
  · exact lookupNode_setNodeInput_ne w "80" "filename_prefix" m _ h
  · rfl

/-- `_inject_input_image` creates no node. -/
lemma lookupNode_inject_input_image_none (w : Workflow) (img m : String)
    (h : lookupNode w m = none) : lookupNode (inject_input_image w img) m = none := by
  unfold inject_input_image
  split
  · exact lookupNode_setNodeInput_none w "31" "image" m _ h
  · exact h

/-- `_inject_prompt` creates no node. -/
lemma lookupNode_inject_prompt_none (w : Workflow) (p m : String)
    (h : lookupNode w m = none) : lookupNode (inject_prompt w p) m = none := by
  unfold inject_prompt
  split
  · exact lookupNode_setNodeInput_none w "115" "text" m _ h
  · exact h

/-- `_inject_ksampler_params` creates no node. -/
lemma lookupNode_inject_ksampler_none (w : Workflow) (st : Int) (c : Rat) (sd : Int)
    (m : String) (h : lookupNode w m = none) :
    lookupNode (inject_ksampler_params w st c sd) m = none := by
  unfold inject_ksampler_params
  split
  · exact lookupNode_setNodeInput_none _ _ _ _ _
      (lookupNode_setNodeInput_none _ _ _ _ _ (lookupNode_setNodeInput_none _ _ _ _ _ h))
  · exact h

/-- `_inject_output_prefix` creates no node. -/
lemma lookupNode_inject_output_pfx_none (w : Workflow) (pre m : String)
    (h : lookupNode w m = none) : lookupNode (inject_output_pfx w pre) m = none := by
  unfold inject_output_pfx
  split
  · exact lookupNode_setNodeInput_none w "80" "filename_prefix" m _ h
  · exact h

/-- Parameter injection never creates a node: a node-id absent from the
input graph is absent from the injected graph. -/
lemma lookupNode_inject_none (w : Workflow) (img p : String) (st : Int) (c : Rat)
    (sd : SeedArg) (pre : String) (rng : Nat) (m : String)
    (h : lookupNode w m = none) :
    lookupNode (inject_workflow_parameters w img p st c sd pre rng) m = none := by
  unfold inject_workflow_parameters
  exact lookupNode_inject_output_pfx_none _ _ _
    (lookupNode_inject_ksampler_none _ _ _ _ _
      (lookupNode_inject_prompt_none _ _ _ (lookupNode_inject_input_image_none _ _ _ h)))

/-- The per-node listing of node-to-node references of a workflow: for
each node in order, its id and the `[producerNodeId, outputSlot]` pairs
among its input values. -/
def nodeRefs (n : Node) : List (String × Nat) :=
  n.inputs.filterMap (fun p => match p.2 with | .vRef r s => some (r, s) | _ => none)

/-- References of the whole graph, node by node. -/
def workflowRefs (w : Workflow) : List (String × List (String × Nat)) :=
  w.map (fun p => (p.1, nodeRefs p.2))

/-! ## Claim theorems -/

/-- C1 (injection fidelity): for every valid set of generation
parameters (steps in [4,8], cfg in [1.0,5.0], any prompt), the graph
returned by `inject_workflow_parameters` on the template has sampler
node "14" inputs `steps`, `cfg` and `seed` equal to the given steps,
cfg and resolved seed exactly, and positive-conditioning node "115"
`text` equal to the given prompt exactly — no transformation, trimming
or truncation. -/
theorem C1_injection_fidelity (input_image prompt : String) (steps : Int) (cfg : Rat)
    (seed : SeedArg) (opfx : String) (rng : Nat)
    (hs1 : 4 ≤ steps) (hs2 : steps ≤ 8) (hc1 : 1 ≤ cfg) (hc2 : cfg ≤ 5) :
    getInput (inject_workflow_parameters get_workflow_template input_image prompt
        steps cfg seed opfx rng) "14" "steps" = some (.vInt steps) ∧
    getInput (inject_workflow_parameters get_workflow_template input_image prompt
        steps cfg seed opfx rng) "14" "cfg" = some (.vNum cfg) ∧
    getInput (inject_workflow_parameters get_workflow_template input_image prompt
        steps cfg seed opfx rng) "14" "seed" = some (.vInt (resolveSeed seed rng)) ∧
    getInput (inject_workflow_parameters get_workflow_template input_image prompt
        steps cfg seed opfx rng) "115" "text" = some (.vStr prompt) :=
  ⟨rfl, rfl, rfl, rfl⟩

/-- Witness for C1 at steps 8, cfg 3, seed 12345, prompt "rotate left 45". -/
theorem C1_injection_fidelity_witness :
    getInput (inject_workflow_parameters get_workflow_template "in.png" "rotate left 45"
        8 3 (.intSeed 12345) "qwen" 0) "14" "steps" = some (.vInt 8) ∧
    getInput (inject_workflow_parameters get_workflow_template "in.png" "rotate left 45"
        8 3 (.intSeed 12345) "qwen" 0) "14" "cfg" = some (.vNum 3) ∧
    getInput (inject_workflow_parameters get_workflow_template "in.png" "rotate left 45"
        8 3 (.intSeed 12345) "qwen" 0) "14" "seed" = some (.vInt (resolveSeed (.intSeed 12345) 0)) ∧
    getInput (inject_workflow_parameters get_workflow_template "in.png" "rotate left 45"
        8 3 (.intSeed 12345) "qwen" 0) "115" "text" = some (.vStr "rotate left 45") :=
  C1_injection_fidelity "in.png" "rotate left 45" 8 3 (.intSeed 12345) "qwen" 0
    (by decide) (by decide) (by norm_num) (by norm_num)

/-- C7 (seed resolution): the sampler node of the injected template
carries exactly the resolved seed; when `seed` is absent the resolved
seed is an integer in `[0, 2^63)`; when it is a provided integer or a
numeric string the resolved seed equals the provided value exactly. -/
theorem C7_seed_resolution (input_image prompt : String) (steps : Int) (cfg : Rat)
    (seed : SeedArg) (opfx : String) (rng : Nat) :
    getInput (inject_workflow_parameters get_workflow_template input_image prompt
        steps cfg seed opfx rng) "14" "seed" = some (.vInt (resolveSeed seed rng)) ∧
    (seed = .noSeed → 0 ≤ resolveSeed seed rng ∧ resolveSeed seed rng < 2 ^ 63) ∧
    (∀ n : Int, seed = .intSeed n → resolveSeed seed rng = n) ∧
    (∀ s : String, seed = .strSeed s → strIsDigit s = true →
      resolveSeed seed rng = ((strToNat s : Nat) : Int)) := by
  refine ⟨rfl, ?_, ?_, ?_⟩
  · rintro rfl
    refine ⟨Int.natCast_nonneg _, ?_⟩
    have hlt : randint63 rng < 2 ^ 63 := Nat.mod_lt _ (by norm_num)
    show ((randint63 rng : Nat) : Int) < 2 ^ 63
    exact_mod_cast hlt
  · rintro n rfl
    rfl
  · rintro s rfl hdig
    simp [resolveSeed, hdig]

/-- Witness for C7 at an omitted seed with entropy 7. -/
theorem C7_seed_resolution_witness :
    getInput (inject_workflow_parameters get_workflow_template "a.png" "p" 8 3
        .noSeed "pre" 7) "14" "seed" = some (.vInt (resolveSeed .noSeed 7)) ∧
    0 ≤ resolveSeed .noSeed 7 ∧ resolveSeed .noSeed 7 < 2 ^ 63 :=
  ⟨(C7_seed_resolution "a.png" "p" 8 3 .noSeed "pre" 7).1,
   (C7_seed_resolution "a.png" "p" 8 3 .noSeed "pre" 7).2.1 rfl⟩

/-- C3 counterexample: on the empty workflow every designated node
("31", "115", "14", "80") is absent, yet `inject_workflow_parameters`
does not fail with any `MalformedTemplate` error — it returns the graph
unchanged, every substitution silently skipped.  (No `MalformedTemplate`
error exists anywhere in the code; the helpers guard each write with
`if node in workflow`.) -/
theorem C3_counterexample :
    inject_workflow_parameters ([] : Workflow) "a.png" "p" 8 3 .noSeed "x" 0 = ([] : Workflow) ∧
    lookupNode ([] : Workflow) "14" = none :=
  ⟨rfl, rfl⟩

/-- C3 amended: when a designated node is absent from the workflow
passed to the injector, injection does not fail — it silently skips that
substitution and returns a graph in which the node is still absent. -/
theorem C3_missing_node_silently_skipped (w : Workflow) (img p : String) (steps : Int)
    (cfg : Rat) (seed : SeedArg) (opfx : String) (rng : Nat) (m : String)
    (h : lookupNode w m = none) :
    lookupNode (inject_workflow_parameters w img p steps cfg seed opfx rng) m = none :=
  lookupNode_inject_none w img p steps cfg seed opfx rng m h

/-- Witness for the amended C3: injecting into a workflow that lacks the
sampler node leaves the sampler node absent, with no error. -/
theorem C3_missing_node_silently_skipped_witness :
    lookupNode (inject_workflow_parameters ([] : Workflow) "a.png" "p" 8 3 .noSeed "x" 0)
      "14" = none :=
  C3_missing_node_silently_skipped ([] : Workflow) "a.png" "p" 8 3 .noSeed "x" 0 "14" rfl

/-- C4 counterexample: with the non-numeric string seed "abc" (and
entropy 5), `inject_workflow_parameters` does not signal any
`InvalidParameter` error — it produces a job graph whose sampler seed is
the fresh random draw (5), silently ignoring the provided string. -/
theorem C4_counterexample :
    strIsDigit "abc" = false ∧
    getInput (inject_workflow_parameters get_workflow_template "i.png" "p" 8 3
        (.strSeed "abc") "pre" 5) "14" "seed" = some (.vInt 5) := by
  exact ⟨rfl, by decide⟩

/-- C4 amended: a seed given as a non-numeric string is not rejected by
parameter injection: injection still produces a job graph, substituting
a fresh random seed; a numeric string seed is parsed to the
corresponding integer.  The standalone `validate_workflow_parameters`
does classify a non-empty non-numeric string seed as invalid, but the
injection path never calls it. -/
theorem C4_nonnumeric_seed_falls_back_to_random (s : String) (img p : String)
    (steps : Int) (cfg : Rat) (opfx : String) (rng : Nat)
    (h : strIsDigit s = false) :
    resolveSeed (.strSeed s) rng = ((randint63 rng : Nat) : Int) ∧
    getInput (inject_workflow_parameters get_workflow_template img p steps cfg
        (.strSeed s) opfx rng) "14" "seed" = some (.vInt ((randint63 rng : Nat) : Int)) ∧
    (∀ s2 : String, strIsDigit s2 = true →
      resolveSeed (.strSeed s2) rng = ((strToNat s2 : Nat) : Int)) ∧
    (s ≠ "" → (validate_workflow_parameters (.pInt 8) (.pFloat 3) (some (.pStr s))).1 = false) := by
  have hres : resolveSeed (.strSeed s) rng = ((randint63 rng : Nat) : Int) := by
    simp [resolveSeed, h]
  refine ⟨hres, ?_, ?_, ?_⟩
  · have hbase : getInput (inject_workflow_parameters get_workflow_template img p steps cfg
        (.strSeed s) opfx rng) "14" "seed" = some (.vInt (resolveSeed (.strSeed s) rng)) := rfl
    rw [hbase, hres]
  · intro s2 h2
    simp [resolveSeed, h2]
  · intro hne
    have hne' : (s == "") = false := by
      simpa using hne
    simp [validate_workflow_parameters, stepsOk, cfgOk, seedOk, h, hne']
    split <;> rfl

/-- Witness for the amended C4 at the seed string "abc". -/
theorem C4_nonnumeric_seed_falls_back_to_random_witness :
    resolveSeed (.strSeed "abc") 5 = ((randint63 5 : Nat) : Int) ∧
    getInput (inject_workflow_parameters get_workflow_template "i.png" "p" 8 3
        (.strSeed "abc") "pre" 5) "14" "seed" = some (.vInt ((randint63 5 : Nat) : Int)) ∧
    (∀ s2 : String, strIsDigit s2 = true →
      resolveSeed (.strSeed s2) 5 = ((strToNat s2 : Nat) : Int)) ∧
    ("abc" ≠ "" → (validate_workflow_parameters (.pInt 8) (.pFloat 3)
        (some (.pStr "abc"))).1 = false) :=
  C4_nonnumeric_seed_falls_back_to_random "abc" "i.png" "p" 8 3 "pre" 5 rfl

/-- C9 counterexample: the template returned by the builder has exactly
15 nodes, not 14 as claimed. -/
theorem C9_counterexample :
    get_workflow_template.length = 15 ∧ get_workflow_template.length ≠ 14 := by
  exact ⟨rfl, by decide⟩

/-- C9 amended: the template has exactly 15 nodes; parameter injection
never changes the node-to-node references (the per-node reference
listing of the injected graph equals the template's), and every node
other than the designated "31", "115", "14", "80" is untouched. -/
theorem C9_template_size_and_refs :
    get_workflow_template.length = 15 ∧
    (∀ (img p : String) (steps : Int) (cfg : Rat) (seed : SeedArg) (opfx : String) (rng : Nat),
      workflowRefs (inject_workflow_parameters get_workflow_template img p steps cfg seed opfx rng)
        = workflowRefs get_workflow_template) ∧
    (∀ (img p : String) (steps : Int) (cfg : Rat) (seed : SeedArg) (opfx : String) (rng : Nat)
      (m : String), m ≠ "31" → m ≠ "115" → m ≠ "14" → m ≠ "80" →
      lookupNode (inject_workflow_parameters get_workflow_template img p steps cfg seed opfx rng) m
        = lookupNode get_workflow_template m) := by
  refine ⟨rfl, fun img p steps cfg seed opfx rng => rfl, ?_⟩
  intro img p steps cfg seed opfx rng m h31 h115 h14 h80
  unfold inject_workflow_parameters
  rw [lookupNode_inject_output_pfx_ne _ _ _ h80, lookupNode_inject_ksampler_ne _ _ _ _ _ h14,
    lookupNode_inject_prompt_ne _ _ _ h115, lookupNode_inject_input_image_ne _ _ _ h31]

/-- Witness for the amended C9: the VAE-decode node "12" is untouched by
a concrete injection. -/
theorem C9_template_size_and_refs_witness :
    lookupNode (inject_workflow_parameters get_workflow_template "a.png" "p" 8 3
        (.intSeed 1) "pre" 0) "12" = lookupNode get_workflow_template "12" :=
  C9_template_size_and_refs.2.2 "a.png" "p" 8 3 (.intSeed 1) "pre" 0 "12"
    (by decide) (by decide) (by decide) (by decide)

/-! ## Derived facts about the batch loop -/

/-- Whether `infer_single` returned normally. -/
def outcomeIsSuccess : JobOutcome → Bool
  | .success _ => true
  | _ => false

/-- The image of a successful outcome. -/
def outcomeImage : JobOutcome → String
  | .success s => s
  | _ => ""

/-- The `images` entry the batch loop builds for perspective `p` at
index `i` (lines 893-898). -/
def mkEntry (env : GenEnv) (seed : Option String) (i : Nat) (p : Persp) : ImageEntry :=
  { perspective_id := pidAt p i, perspective_name := pnameAt p i,
    image := outcomeImage (env.runJob i p), seed_used := seedUsed seed }

/-- The entries an all-successful batch accumulates for perspectives
from index `i0` on. -/
def entriesFrom (env : GenEnv) (seed : Option String) : List Persp → Nat → List ImageEntry
  | [], _ => []
  | p :: ps, i => mkEntry env seed i p :: entriesFrom env seed ps (i + 1)

/-- The indices `i0, i0+1, ..., i0+n-1`. -/
def idxFrom (i0 : Nat) : Nat → List Nat
  | 0 => []
  | n + 1 => i0 :: idxFrom (i0 + 1) n

/-- The seed value `generate` hands to `infer_single`, as the injector
receives it: absent, or the request's seed string. -/
def seedArgOf : Option String → SeedArg
  | none => .noSeed
  | some s => .strSeed s

lemma entriesFrom_length (env : GenEnv) (seed : Option String) :
    ∀ (ps : List Persp) (i0 : Nat), (entriesFrom env seed ps i0).length = ps.length := by
  intro ps
  induction ps with
  | nil => intro i0; rfl
  | cons p ps ih => intro i0; simp [entriesFrom, ih]

lemma entriesFrom_getElem? (env : GenEnv) (seed : Option String) :
    ∀ (ps : List Persp) (i0 j : Nat),
      (entriesFrom env seed ps i0)[j]? = (ps[j]?).map (fun p => mkEntry env seed (i0 + j) p) := by
  intro ps
  induction ps with
  | nil => intro i0 j; simp [entriesFrom]
  | cons p ps ih =>
    intro i0 j
    cases j with
    | zero => simp [entriesFrom]
    | succ k =>
      have hshift : i0 + (k + 1) = (i0 + 1) + k := by omega
      simp [entriesFrom, hshift, ih]

lemma entriesFrom_seed_used (env : GenEnv) (seed : Option String) :
    ∀ (ps : List Persp) (i0 : Nat) (e : ImageEntry),
      e ∈ entriesFrom env seed ps i0 → e.seed_used = seedUsed seed := by
  intro ps
  induction ps with
  | nil => intro i0 e he; simp [entriesFrom] at he
  | cons p ps ih =>
    intro i0 e he
    simp only [entriesFrom, List.mem_cons] at he
    rcases he with he | he
    · rw [he]; rfl
    · exact ih (i0 + 1) e he

lemma mem_idxFrom : ∀ (n i0 j : Nat), j ∈ idxFrom i0 n ↔ i0 ≤ j ∧ j < i0 + n := by
  intro n
  induction n with
  | zero => intro i0 j; simp [idxFrom]
  | succ k ih =>
    intro i0 j
    simp only [idxFrom, List.mem_cons, ih]
    omega

/-- When every job from index `i0` on succeeds, the batch loop returns
the success body with the accumulated entries in order, having run
every index. -/
lemma runPerspectives_all_success (env : GenEnv) (seed : Option String) (orig : String) :
    ∀ (ps : List Persp) (i0 : Nat) (acc : List ImageEntry),
      (∀ (j : Nat) (p : Persp), ps[j]? = some p → outcomeIsSuccess (env.runJob (i0 + j) p) = true) →
      runPerspectives env seed orig ps i0 acc
        = (.successResp (acc ++ entriesFrom env seed ps i0) orig, idxFrom i0 ps.length) := by
  intro ps
  induction ps with
  | nil => intro i0 acc h; simp [runPerspectives, entriesFrom, idxFrom]
  | cons p ps ih =>
    intro i0 acc h
    have h0 : outcomeIsSuccess (env.runJob i0 p) = true := by
      have := h 0 p (by simp)
      simpa using this
    obtain ⟨img, himg⟩ : ∃ img, env.runJob i0 p = .success img := by
      cases hj : env.runJob i0 p with
      | success s => exact ⟨s, rfl⟩
      | timedOut m => rw [hj] at h0; simp [outcomeIsSuccess] at h0
      | runtimeError m => rw [hj] at h0; simp [outcomeIsSuccess] at h0
      | otherError m => rw [hj] at h0; simp [outcomeIsSuccess] at h0
    have hrest : ∀ (j : Nat) (q : Persp), ps[j]? = some q →
        outcomeIsSuccess (env.runJob ((i0 + 1) + j) q) = true := by
      intro j q hq
      have hshift : (i0 + 1) + j = i0 + (j + 1) := by omega
      rw [hshift]
      exact h (j + 1) q (by simpa using hq)
    simp only [runPerspectives, himg]
    rw [ih (i0 + 1) _ hrest]
    simp [entriesFrom, mkEntry, outcomeImage, himg, idxFrom, List.append_assoc]

/-- When the first non-success outcome occurs at index `i`, the batch
loop returns that perspective's error body at once, having run exactly
the indices up to and including `i`. -/
lemma runPerspectives_first_failure (env : GenEnv) (seed : Option String) (orig : String) :
    ∀ (ps : List Persp) (i : Nat) (pbad : Persp) (i0 : Nat) (acc : List ImageEntry),
      ps[i]? = some pbad →
      (∀ (j : Nat) (p : Persp), j < i → ps[j]? = some p →
        outcomeIsSuccess (env.runJob (i0 + j) p) = true) →
      outcomeIsSuccess (env.runJob (i0 + i) pbad) = false →
      runPerspectives env seed orig ps i0 acc
        = (perspFailureResponse (pnameAt pbad (i0 + i)) (env.runJob (i0 + i) pbad),
           idxFrom i0 (i + 1)) := by
  intro ps
  induction ps with
  | nil => intro i pbad i0 acc hget; simp at hget
  | cons p ps ih =>
    intro i pbad i0 acc hget hsucc hfail
    cases i with
    | zero =>
      have hp : p = pbad := by simpa using hget
      subst hp
      cases hj : env.runJob (i0 + 0) p with
      | success s => rw [hj] at hfail; simp [outcomeIsSuccess] at hfail
      | timedOut m =>
        have hj0 : env.runJob i0 p = .timedOut m := by simpa using hj
        simp [runPerspectives, hj0, hj, idxFrom]
      | runtimeError m =>
        have hj0 : env.runJob i0 p = .runtimeError m := by simpa using hj
        simp [runPerspectives, hj0, hj, idxFrom]
      | otherError m =>
        have hj0 : env.runJob i0 p = .otherError m := by simpa using hj
        simp [runPerspectives, hj0, hj, idxFrom]
    | succ k =>
      have h0 : outcomeIsSuccess (env.runJob i0 p) = true := by
        have := hsucc 0 p (Nat.succ_pos k) (by simp)
        simpa using this
      obtain ⟨img, himg⟩ : ∃ img, env.runJob i0 p = .success img := by
        cases hj : env.runJob i0 p with
        | success s => exact ⟨s, rfl⟩
        | timedOut m => rw [hj] at h0; simp [outcomeIsSuccess] at h0
        | runtimeError m => rw [hj] at h0; simp [outcomeIsSuccess] at h0
        | otherError m => rw [hj] at h0; simp [outcomeIsSuccess] at h0
      have hget' : ps[k]? = some pbad := by simpa using hget
      have hsucc' : ∀ (j : Nat) (q : Persp), j < k → ps[j]? = some q →
          outcomeIsSuccess (env.runJob ((i0 + 1) + j) q) = true := by
        intro j q hj hq
        have hshift : (i0 + 1) + j = i0 + (j + 1) := by omega
        rw [hshift]
        exact hsucc (j + 1) q (by omega) (by simpa using hq)
      have hfail' : outcomeIsSuccess (env.runJob ((i0 + 1) + k) pbad) = false := by
        have hshift : (i0 + 1) + k = i0 + (k + 1) := by omega
        rw [hshift]; exact hfail
      have hshift2 : (i0 + 1) + k = i0 + (k + 1) := by omega
      simp only [runPerspectives, himg]
      rw [ih k pbad (i0 + 1) _ hget' hsucc' hfail']
      rw [hshift2]
      simp [idxFrom]

/-- When every validation stage passes, `generate` hands control to the
batch loop over the request perspectives in order, starting at index 0
with an empty accumulator. -/
lemma generate_valid (env : GenEnv) (req : GenRequest) (img : String)
    (hhealth : env.healthy = true) (himg : req.image = some img)
    (hne0 : (img == "") = false) (hok : env.imageOk img = true)
    (hne : req.perspectives.isEmpty = false)
    (hpr : firstBadPrompt req.perspectives 0 = none)
    (hsteps : stepsOk (req.steps.getD (.pInt 8)) = true)
    (hcfg : cfgOk (req.cfg_scale.getD (.pFloat 3)) = true) :
    generate env req = runPerspectives env req.seed img req.perspectives 0 [] := by
  unfold generate
  rw [hhealth, himg]
  simp [hne0, hok, hne, hpr, hsteps, hcfg]

/-- When the earlier stages pass but `steps` fails its type/range check,
`generate` returns the 400 `invalid_params` body naming steps, with no
job run. -/
lemma generate_invalid_steps (env : GenEnv) (req : GenRequest) (img : String)
    (hhealth : env.healthy = true) (himg : req.image = some img)
    (hne0 : (img == "") = false) (hok : env.imageOk img = true)
    (hne : req.perspectives.isEmpty = false)
    (hpr : firstBadPrompt req.perspectives 0 = none)
    (hsteps : stepsOk (req.steps.getD (.pInt 8)) = false) :
    generate env req
      = (.errorResp 400 "invalid_params" "steps must be an integer between 4 and 8", []) := by
  unfold generate
  rw [hhealth, himg]
  simp [hne0, hok, hne, hpr, hsteps]

/-- When the earlier stages pass, `steps` is valid, but `cfg_scale`
fails its type/range check, `generate` returns the 400 `invalid_params`
body naming cfg_scale, with no job run. -/
lemma generate_invalid_cfg (env : GenEnv) (req : GenRequest) (img : String)
    (hhealth : env.healthy = true) (himg : req.image = some img)
    (hne0 : (img == "") = false) (hok : env.imageOk img = true)
    (hne : req.perspectives.isEmpty = false)
    (hpr : firstBadPrompt req.perspectives 0 = none)
    (hsteps : stepsOk (req.steps.getD (.pInt 8)) = true)
    (hcfg : cfgOk (req.cfg_scale.getD (.pFloat 3)) = false) :
    generate env req
      = (.errorResp 400 "invalid_params" "cfg_scale must be a number between 1.0 and 5.0", []) := by
  unfold generate
  rw [hhealth, himg]
  simp [hne0, hok, hne, hpr, hsteps, hcfg]

/-- If every poll within the remaining budget observes a non-terminal
state, the loop runs out of budget and reports a timeout. -/
lemma pollFrom_timedOut (polls : Nat → PollResp) (timeout : Nat) :
    ∀ (fuel t : Nat), (∀ u, u < fuel → nonTerminal (polls (t + u)) = true) →
      pollFrom polls timeout fuel t = .timedOut timeout := by
  intro fuel
  induction fuel with
  | zero => intro t h; rfl
  | succ n ih =>
    intro t h
    have h0 : nonTerminal (polls t) = true := by
      have := h 0 (Nat.succ_pos n)
      simpa using this
    have hnext : ∀ u, u < n → nonTerminal (polls ((t + 1) + u)) = true := by
      intro u hu
      have hshift : (t + 1) + u = t + (u + 1) := by omega
      rw [hshift]
      exact h (u + 1) (by omega)
    cases hp : polls t with
    | notFound => simp only [pollFrom, hp]; exact ih (t + 1) hnext
    | pending => simp only [pollFrom, hp]; exact ih (t + 1) hnext
    | transportErr => simp only [pollFrom, hp]; exact ih (t + 1) hnext
    | errorStatus m => rw [hp] at h0; simp [nonTerminal] at h0
    | outputsReady l =>
      cases l with
      | nil => simp only [pollFrom, hp]; exact ih (t + 1) hnext
      | cons a as => rw [hp] at h0; simp [nonTerminal] at h0

/-! ## Concrete fixtures for the witnesses -/

/-- Perspective A of the concrete batch. -/
def perspA : Persp := { id := some "left_45", name := some "A", prompt := some "rotate left 45" }

/-- Perspective B of the concrete batch. -/
def perspB : Persp := { id := some "right_45", name := some "B", prompt := some "rotate right 45" }

/-- Perspective C of the concrete batch. -/
def perspC : Persp := { id := some "top", name := some "C", prompt := some "top view" }

/-- An engine where every job succeeds. -/
def okEnv : GenEnv :=
  { healthy := true, imageOk := fun _ => true,
    runJob := fun i _ => .success ("img" ++ toString i) }

/-- An engine where the job of perspective index 1 raises
`RuntimeError` and every other job succeeds. -/
def failAtBEnv : GenEnv :=
  { healthy := true, imageOk := fun _ => true,
    runJob := fun i _ => if i == 1 then .runtimeError "boom" else .success "ok" }

/-- An engine where every job raises `TimeoutError`. -/
def timeoutEnv : GenEnv :=
  { healthy := true, imageOk := fun _ => true,
    runJob := fun _ _ => .timedOut "Workflow execution timed out after 120 seconds" }

/-- A well-formed request over perspectives [A, B, C]. -/
def okReq : GenRequest :=
  { image := some "BASE64IMAGE", perspectives := [perspA, perspB, perspC],
    steps := some (.pInt 8), cfg_scale := some (.pFloat 3), seed := some "12345" }

/-- The same request with `steps` out of range. -/
def badStepsReq : GenRequest := { okReq with steps := some (.pInt 10) }

/-- The same request with no seed supplied. -/
def randomSeedReq : GenRequest := { okReq with seed := none }

/-- C2 (fail-fast batch semantics): if, with all request validation
passing, the jobs of every perspective before index `i` succeed and the
job at index `i` raises, `generate` returns the single error body built
for that perspective's name — an error response that carries no image
entries at all — and the set of indices whose job was run is exactly
`0..i`: no job is run for any index greater than `i`. -/
theorem C2_fail_fast (env : GenEnv) (req : GenRequest) (img : String) (i : Nat) (pbad : Persp)
    (hhealth : env.healthy = true) (himg : req.image = some img) (himgne : img ≠ "")
    (hok : env.imageOk img = true) (hne : req.perspectives.isEmpty = false)
    (hpr : firstBadPrompt req.perspectives 0 = none)
    (hsteps : stepsOk (req.steps.getD (.pInt 8)) = true)
    (hcfg : cfgOk (req.cfg_scale.getD (.pFloat 3)) = true)
    (hget : req.perspectives[i]? = some pbad)
    (hsucc : ∀ (j : Nat) (p : Persp), j < i → req.perspectives[j]? = some p →
      outcomeIsSuccess (env.runJob j p) = true)
    (hfail : outcomeIsSuccess (env.runJob i pbad) = false) :
    (generate env req).1 = perspFailureResponse (pnameAt pbad i) (env.runJob i pbad) ∧
    (∃ status code msg, (generate env req).1 = GenResponse.errorResp status code msg) ∧
    (generate env req).2 = idxFrom 0 (i + 1) ∧
    (∀ j, j ∈ (generate env req).2 → j ≤ i) := by
  have hne0 : (img == "") = false := by simpa using himgne
  have hred := generate_valid env req img hhealth himg hne0 hok hne hpr hsteps hcfg
  have hsucc' : ∀ (j : Nat) (p : Persp), j < i → req.perspectives[j]? = some p →
      outcomeIsSuccess (env.runJob (0 + j) p) = true := by
    intro j p hj hp
    rw [Nat.zero_add]
    exact hsucc j p hj hp
  have hfail' : outcomeIsSuccess (env.runJob (0 + i) pbad) = false := by
    rw [Nat.zero_add]; exact hfail
  have hff := runPerspectives_first_failure env req.seed img req.perspectives i pbad 0 []
    hget hsucc' hfail'
  rw [hred, hff]
  refine ⟨by rw [Nat.zero_add], ?_, rfl, ?_⟩
  · rw [Nat.zero_add]
    cases hj : env.runJob i pbad with
    | success s => rw [hj] at hfail; simp [outcomeIsSuccess] at hfail
    | timedOut m => exact ⟨504, "timeout", "视角 \x27" ++ pnameAt pbad i ++ "\x27 的生成超时", rfl⟩
    | runtimeError e =>
      exact ⟨500, "generation_error", "视角 \x27" ++ pnameAt pbad i ++ "\x27 的图像生成失败: " ++ e, rfl⟩
    | otherError e =>
      exact ⟨500, "generation_error", "视角 \x27" ++ pnameAt pbad i ++ "\x27 生成时发生未知错误: " ++ e, rfl⟩
  · intro j hj
    have := (mem_idxFrom (i + 1) 0 j).mp hj
    omega

/-- Witness for C2: of [A, B, C] with B's job failing, the response is
B's error body, it is an error response, and only indices 0 and 1 ran. -/
theorem C2_fail_fast_witness :
    (generate failAtBEnv okReq).1
        = perspFailureResponse (pnameAt perspB 1) (failAtBEnv.runJob 1 perspB) ∧
    (∃ status code msg, (generate failAtBEnv okReq).1 = GenResponse.errorResp status code msg) ∧
    (generate failAtBEnv okReq).2 = idxFrom 0 2 ∧
    (∀ j, j ∈ (generate failAtBEnv okReq).2 → j ≤ 1) := by
  refine C2_fail_fast failAtBEnv okReq "BASE64IMAGE" 1 perspB rfl rfl (by decide) rfl rfl rfl
    rfl (by decide) rfl ?_ rfl
  intro j p hj hp
  have hj0 : j = 0 := by omega
  subst hj0
  have hp0 : p = perspA := by simpa [okReq] using hp.symm
  subst hp0
  rfl

/-- C5 (range validation before submission): with the earlier request
stages valid, a `steps` value failing its integer/range check makes
`generate` return HTTP 400 with code `invalid_params` and a message
naming steps, running no job; likewise a `cfg_scale` value failing its
number/range check yields 400 `invalid_params` naming cfg_scale, with
no job run. -/
theorem C5_range_validation (env : GenEnv) (req : GenRequest) (img : String)
    (hhealth : env.healthy = true) (himg : req.image = some img) (himgne : img ≠ "")
    (hok : env.imageOk img = true) (hne : req.perspectives.isEmpty = false)
    (hpr : firstBadPrompt req.perspectives 0 = none) :
    (stepsOk (req.steps.getD (.pInt 8)) = false →
      generate env req
        = (.errorResp 400 "invalid_params" "steps must be an integer between 4 and 8", [])) ∧
    (stepsOk (req.steps.getD (.pInt 8)) = true →
      cfgOk (req.cfg_scale.getD (.pFloat 3)) = false →
      generate env req
        = (.errorResp 400 "invalid_params" "cfg_scale must be a number between 1.0 and 5.0", [])) := by
  have hne0 : (img == "") = false := by simpa using himgne
  constructor
  · intro hsteps
    exact generate_invalid_steps env req img hhealth himg hne0 hok hne hpr hsteps
  · intro hsteps hcfg
    exact generate_invalid_cfg env req img hhealth himg hne0 hok hne hpr hsteps hcfg

/-- Witness for C5: `steps = 10` is rejected with `invalid_params` and
no job runs. -/
theorem C5_range_validation_witness :
    generate okEnv badStepsReq
      = (.errorResp 400 "invalid_params" "steps must be an integer between 4 and 8", []) :=
  (C5_range_validation okEnv badStepsReq "BASE64IMAGE" rfl rfl (by decide) rfl rfl rfl).1
    (by decide)

/-- C6 (batch ordering): when all request validation passes and every
perspective's job succeeds, the success response's images list has
exactly one entry per perspective, in the caller-supplied order: the
entry at index `j` carries perspective `j`'s id, name and generated
image. -/
theorem C6_batch_ordering (env : GenEnv) (req : GenRequest) (img : String)
    (hhealth : env.healthy = true) (himg : req.image = some img) (himgne : img ≠ "")
    (hok : env.imageOk img = true) (hne : req.perspectives.isEmpty = false)
    (hpr : firstBadPrompt req.perspectives 0 = none)
    (hsteps : stepsOk (req.steps.getD (.pInt 8)) = true)
    (hcfg : cfgOk (req.cfg_scale.getD (.pFloat 3)) = true)
    (hall : ∀ (j : Nat) (p : Persp), req.perspectives[j]? = some p →
      outcomeIsSuccess (env.runJob j p) = true) :
    (generate env req).1
        = .successResp (entriesFrom env req.seed req.perspectives 0) img ∧
    (entriesFrom env req.seed req.perspectives 0).length = req.perspectives.length ∧
    (∀ (j : Nat) (p : Persp), req.perspectives[j]? = some p →
      (entriesFrom env req.seed req.perspectives 0)[j]?
        = some { perspective_id := pidAt p j, perspective_name := pnameAt p j,
                 image := outcomeImage (env.runJob j p), seed_used := seedUsed req.seed }) := by
  have hne0 : (img == "") = false := by simpa using himgne
  have hred := generate_valid env req img hhealth himg hne0 hok hne hpr hsteps hcfg
  have hall' : ∀ (j : Nat) (p : Persp), req.perspectives[j]? = some p →
      outcomeIsSuccess (env.runJob (0 + j) p) = true := by
    intro j p hp
    rw [Nat.zero_add]
    exact hall j p hp
  have hrun := runPerspectives_all_success env req.seed img req.perspectives 0 [] hall'
  refine ⟨by rw [hred, hrun]; rfl, entriesFrom_length env req.seed req.perspectives 0, ?_⟩
  intro j p hp
  rw [entriesFrom_getElem? env req.seed req.perspectives 0 j, hp]
  simp [mkEntry]

/-- Witness for C6 on the all-success engine over [A, B, C]. -/
theorem C6_batch_ordering_witness :
    (generate okEnv okReq).1
        = .successResp (entriesFrom okEnv okReq.seed okReq.perspectives 0) "BASE64IMAGE" ∧
    (entriesFrom okEnv okReq.seed okReq.perspectives 0).length = okReq.perspectives.length ∧
    (∀ (j : Nat) (p : Persp), okReq.perspectives[j]? = some p →
      (entriesFrom okEnv okReq.seed okReq.perspectives 0)[j]?
        = some { perspective_id := pidAt p j, perspective_name := pnameAt p j,
                 image := outcomeImage (okEnv.runJob j p), seed_used := seedUsed okReq.seed }) :=
  C6_batch_ordering okEnv okReq "BASE64IMAGE" rfl rfl (by decide) rfl rfl rfl rfl (by decide)
    (fun j p hp => rfl)

/-- C8 (timeout classification): a polling loop that observes no
terminal state within the budget yields a timeout outcome (in
particular with the default 120-second budget), and a batch whose
first failing perspective raised `TimeoutError` returns the error body
with code "timeout" and HTTP status 504. -/
theorem C8_timeout_classification (polls : Nat → PollResp) (timeout : Nat)
    (env : GenEnv) (req : GenRequest) (img : String) (i : Nat) (pbad : Persp) (msg : String)
    (hpoll : ∀ t, t < timeout → nonTerminal (polls t) = true)
    (hhealth : env.healthy = true) (himg : req.image = some img) (himgne : img ≠ "")
    (hok : env.imageOk img = true) (hne : req.perspectives.isEmpty = false)
    (hpr : firstBadPrompt req.perspectives 0 = none)
    (hsteps : stepsOk (req.steps.getD (.pInt 8)) = true)
    (hcfg : cfgOk (req.cfg_scale.getD (.pFloat 3)) = true)
    (hget : req.perspectives[i]? = some pbad)
    (hsucc : ∀ (j : Nat) (p : Persp), j < i → req.perspectives[j]? = some p →
      outcomeIsSuccess (env.runJob j p) = true)
    (hfail : env.runJob i pbad = .timedOut msg) :
    execute_workflow_via_api polls timeout = .timedOut timeout ∧
    (timeout = 120 → execute_workflow_via_api polls = .timedOut 120) ∧
    (generate env req).1
        = .errorResp 504 "timeout" ("视角 \x27" ++ pnameAt pbad i ++ "\x27 的生成超时") ∧
    (generate env req).2 = idxFrom 0 (i + 1) := by
  have hpoll0 : ∀ u, u < timeout → nonTerminal (polls (0 + u)) = true := by
    intro u hu
    rw [Nat.zero_add]
    exact hpoll u hu
  have hexec : execute_workflow_via_api polls timeout = .timedOut timeout :=
    pollFrom_timedOut polls timeout timeout 0 hpoll0
  have hne0 : (img == "") = false := by simpa using himgne
  have hred := generate_valid env req img hhealth himg hne0 hok hne hpr hsteps hcfg
  have hsucc' : ∀ (j : Nat) (p : Persp), j < i → req.perspectives[j]? = some p →
      outcomeIsSuccess (env.runJob (0 + j) p) = true := by
    intro j p hj hp
    rw [Nat.zero_add]
    exact hsucc j p hj hp
  have hfail' : outcomeIsSuccess (env.runJob (0 + i) pbad) = false := by
    rw [Nat.zero_add, hfail]; rfl
  have hff := runPerspectives_first_failure env req.seed img req.perspectives i pbad 0 []
    hget hsucc' hfail'
  refine ⟨hexec, ?_, ?_, by rw [hred, hff]⟩
  · rintro rfl
    exact hexec
  · rw [hred, hff, Nat.zero_add, hfail]
    rfl

/-- Witness for C8: an always-404 poll trace against the default
budget, and a batch whose first perspective times out. -/
theorem C8_timeout_classification_witness :
    execute_workflow_via_api (fun _ => PollResp.notFound) 120 = .timedOut 120 ∧
    ((120 : Nat) = 120 → execute_workflow_via_api (fun _ => PollResp.notFound) = .timedOut 120) ∧
    (generate timeoutEnv okReq).1
        = .errorResp 504 "timeout" ("视角 \x27" ++ pnameAt perspA 0 ++ "\x27 的生成超时") ∧
    (generate timeoutEnv okReq).2 = idxFrom 0 1 :=
  C8_timeout_classification (fun _ => PollResp.notFound) 120 timeoutEnv okReq "BASE64IMAGE" 0
    perspA "Workflow execution timed out after 120 seconds"
    (fun _ _ => rfl) rfl rfl (by decide) rfl rfl rfl rfl (by decide) rfl
    (fun j p hj hp => absurd hj (by omega)) rfl

/-- C10 (seed_used reporting): on an all-success batch, when the
request seed is absent or the empty string, every images entry reports
`seed_used` as the literal string "random" while the graph injected for
each job carries a fresh random integer seed drawn from that call's own
entropy — the injected integer is never reported; when a non-empty seed
string is provided, every entry's `seed_used` is that string unchanged. -/
theorem C10_seed_used_reporting (env : GenEnv) (req : GenRequest) (img : String)
    (hhealth : env.healthy = true) (himg : req.image = some img) (himgne : img ≠ "")
    (hok : env.imageOk img = true) (hne : req.perspectives.isEmpty = false)
    (hpr : firstBadPrompt req.perspectives 0 = none)
    (hsteps : stepsOk (req.steps.getD (.pInt 8)) = true)
    (hcfg : cfgOk (req.cfg_scale.getD (.pFloat 3)) = true)
    (hall : ∀ (j : Nat) (p : Persp), req.perspectives[j]? = some p →
      outcomeIsSuccess (env.runJob j p) = true) :
    (generate env req).1
        = .successResp (entriesFrom env req.seed req.perspectives 0) img ∧
    ((req.seed = none ∨ req.seed = some "") →
      (∀ e, e ∈ entriesFrom env req.seed req.perspectives 0 → e.seed_used = "random") ∧
      (∀ rng : Nat, resolveSeed (seedArgOf req.seed) rng = ((randint63 rng : Nat) : Int)) ∧
      (∀ (rng : Nat) (prm : String) (st : Int) (c : Rat) (pfx : String),
        getInput (inject_workflow_parameters get_workflow_template img prm st c
            (seedArgOf req.seed) pfx rng) "14" "seed"
          = some (.vInt ((randint63 rng : Nat) : Int)))) ∧
    (∀ s : String, req.seed = some s → s ≠ "" →
      ∀ e, e ∈ entriesFrom env req.seed req.perspectives 0 → e.seed_used = s) := by
  have hne0 : (img == "") = false := by simpa using himgne
  have hred := generate_valid env req img hhealth himg hne0 hok hne hpr hsteps hcfg
  have hall' : ∀ (j : Nat) (p : Persp), req.perspectives[j]? = some p →
      outcomeIsSuccess (env.runJob (0 + j) p) = true := by
    intro j p hp
    rw [Nat.zero_add]
    exact hall j p hp
  have hrun := runPerspectives_all_success env req.seed img req.perspectives 0 [] hall'
  refine ⟨by rw [hred, hrun]; rfl, ?_, ?_⟩
  · intro hfalsy
    have hresolve : ∀ rng : Nat,
        resolveSeed (seedArgOf req.seed) rng = ((randint63 rng : Nat) : Int) := by
      intro rng
      rcases hfalsy with h | h <;> rw [h] <;> simp [seedArgOf, resolveSeed, strIsDigit]
    have hrandom : seedUsed req.seed = "random" := by
      rcases hfalsy with h | h <;> rw [h] <;> rfl
    refine ⟨?_, hresolve, ?_⟩
    · intro e he
      rw [entriesFrom_seed_used env req.seed req.perspectives 0 e he, hrandom]
    · intro rng prm st c pfx
      have hbase : getInput (inject_workflow_parameters get_workflow_template img prm st c
          (seedArgOf req.seed) pfx rng) "14" "seed"
          = some (.vInt (resolveSeed (seedArgOf req.seed) rng)) := rfl
      rw [hbase, hresolve rng]
  · intro s hs hsne e he
    rw [entriesFrom_seed_used env req.seed req.perspectives 0 e he, hs]
    simp [seedUsed, hsne]

/-- Witness for C10 on the no-seed request over the all-success engine. -/
theorem C10_seed_used_reporting_witness :
    (generate okEnv randomSeedReq).1
        = .successResp (entriesFrom okEnv randomSeedReq.seed randomSeedReq.perspectives 0)
            "BASE64IMAGE" ∧
    (∀ e, e ∈ entriesFrom okEnv randomSeedReq.seed randomSeedReq.perspectives 0 →
      e.seed_used = "random") ∧
    (∀ rng : Nat, resolveSeed (seedArgOf randomSeedReq.seed) rng = ((randint63 rng : Nat) : Int)) := by
  have h := C10_seed_used_reporting okEnv randomSeedReq "BASE64IMAGE" rfl rfl (by decide) rfl
    rfl rfl rfl (by decide) (fun j p hp => rfl)
  exact ⟨h.1, (h.2.1 (Or.inl rfl)).1, (h.2.1 (Or.inl rfl)).2.1⟩

end QwenEdit
